import Mathlib

/-
Verification of the leveled output/logging engine (out.go).

The Go package is embedded shallowly:
  - Go strings are modelled as lists of characters (the data handled by the
    claims is ASCII, where Go byte positions and lengths coincide with
    character positions and lengths);
  - the package-global mutable state (thresholds, newline-continuation flags,
    stack-trace configuration, error exit value, deferred hook, sinks) is an
    explicit OutState record threaded through the operations;
  - environment variables read by the package at emission time are an explicit
    Env record; the call-site data produced by the Go runtime
    (runtime.Caller, time.Now, os.Getpid, runtime.Stack) is an explicit
    CallerInfo record;
  - an io.Writer sink is a record holding its accumulated contents plus a flag
    saying whether writes to it succeed; os.Exit and deferred-hook invocations
    are recorded in the emission result instead of performed;
  - a Go runtime panic (out-of-range string index) is an explicit flag in the
    result of the function that would panic.
-/

namespace Out

/-! ## Constants (from the const blocks of out.go) -/

/-- Embeds the metadata flag Ldate. -/
def Ldate : Nat := 1

/-- Embeds the metadata flag Ltime. -/
def Ltime : Nat := 2

/-- Embeds the metadata flag Lmicroseconds. -/
def Lmicroseconds : Nat := 4

/-- Embeds the metadata flag Llongfile. -/
def Llongfile : Nat := 8

/-- Embeds the metadata flag Lshortfile. -/
def Lshortfile : Nat := 16

/-- Embeds the metadata flag Llongfunc. -/
def Llongfunc : Nat := 32

/-- Embeds the metadata flag Lshortfunc. -/
def Lshortfunc : Nat := 64

/-- Embeds the metadata flag Lpid. -/
def Lpid : Nat := 128

/-- Embeds the metadata flag Llevel. -/
def Llevel : Nat := 256

/-- Embeds LscreenFlags = Ltime | Lmicroseconds. -/
def LscreenFlags : Nat := Ltime ||| Lmicroseconds

/-- Embeds LlogfileFlags. -/
def LlogfileFlags : Nat :=
  Lpid ||| Llevel ||| Ldate ||| Ltime ||| Lmicroseconds ||| Lshortfile ||| Lshortfunc

/-- Embeds the Level enumeration value LevelTrace (Level is an int in Go). -/
def LevelTrace : Int := 0

/-- Embeds LevelDebug. -/
def LevelDebug : Int := 1

/-- Embeds LevelVerbose. -/
def LevelVerbose : Int := 2

/-- Embeds LevelInfo. -/
def LevelInfo : Int := 3

/-- Embeds LevelNote. -/
def LevelNote : Int := 4

/-- Embeds LevelIssue. -/
def LevelIssue : Int := 5

/-- Embeds LevelError. -/
def LevelError : Int := 6

/-- Embeds LevelFatal. -/
def LevelFatal : Int := 7

/-- Embeds LevelDiscard (sentinel meaning no output at all). -/
def LevelDiscard : Int := 8

/-- Embeds LevelAll (bulk-set selector, not a real level). -/
def LevelAll : Int := 9

/-- Embeds the target/stack flag ForScreen. -/
def ForScreen : Nat := 1

/-- Embeds the target/stack flag ForLogfile. -/
def ForLogfile : Nat := 2

/-- Embeds StackTraceNonZeroErrorExit. -/
def StackTraceNonZeroErrorExit : Nat := 4

/-- Embeds StackTraceErrorExit. -/
def StackTraceErrorExit : Nat := 8

/-- Embeds StackTraceAllIssues. -/
def StackTraceAllIssues : Nat := 16

/-- Embeds ForBoth = ForScreen | ForLogfile. -/
def ForBoth : Nat := ForScreen ||| ForLogfile

/-- Embeds StackTraceExitToLogfile = StackTraceNonZeroErrorExit | ForLogfile. -/
def StackTraceExitToLogfile : Nat := StackTraceNonZeroErrorExit ||| ForLogfile

/-- Embeds the prefix-insertion mode AlwaysInsert. -/
def AlwaysInsert : Nat := 1

/-- Embeds the prefix-insertion mode SmartInsert. -/
def SmartInsert : Nat := 2

/-- Embeds the prefix-insertion mode BlankInsert. -/
def BlankInsert : Nat := 4

/-- Embeds the prefix-insertion mode SkipFirstLine. -/
def SkipFirstLine : Nat := 8

/-! ## Go string primitives on the List Char model -/

/-- Embeds strings.Split(s, sep) for a one-character separator: splitting the
empty string yields one empty piece, and a string with n separators yields
n+1 pieces. -/
def splitOnChar (c : Char) : List Char → List (List Char)
  | [] => [[]]
  | a :: rest =>
    let r := splitOnChar c rest
    if a = c then [] :: r
    else
      match r with
      | [] => [[a]]
      | h :: t => (a :: h) :: t

/-- Embeds strings.Join(pieces, sep) for a one-character separator. -/
def joinWithChar (c : Char) : List (List Char) → List Char
  | [] => []
  | [l] => l
  | l :: rest => l ++ c :: joinWithChar c rest

/-- Embeds strings.Contains(s, pat): pat occurs as a contiguous substring. -/
def substrContains (s pat : List Char) : Bool := decide (pat <:+: s)

/-! ## levelCheck (out.go lines 362-371) -/

/-- Embeds levelCheck: values at or below LevelTrace become LevelTrace, values
at or above LevelDiscard become LevelDiscard, anything else is unchanged. -/
def levelCheck (level : Int) : Int :=
  if level ≤ LevelTrace then LevelTrace
  else if level ≥ LevelDiscard then LevelDiscard
  else level

/-! ## InsertPrefix (out.go lines 1235-1276) -/

/-- Embeds the per-line loop body of InsertPrefix: the final split element is
left alone when empty, line 0 is left alone when SkipFirstLine is set,
BlankInsert substitutes the space prefix, and otherwise the prefix is
prepended. idx is the position of the first element of the remaining list. -/
def prefixLinesAux (pfx spacePfx : List Char) (ctrl : Nat) (numLines : Nat) :
    Nat → List (List Char) → List (List Char)
  | _, [] => []
  | idx, line :: rest =>
    (if (idx = numLines - 1 ∧ line = []) ∨ (idx = 0 ∧ ctrl &&& SkipFirstLine ≠ 0) then line
     else if ctrl &&& BlankInsert ≠ 0 then spacePfx ++ line
     else pfx ++ line) :: prefixLinesAux pfx spacePfx ctrl numLines (idx + 1) rest

/-- Embeds InsertPrefix(s, prefix, ctrl, errCode).  The Go function reads the
package global defaultErrCode (declared in a source file of this repository
that is not under src/); it is passed here as the explicit argument dec.
Go byte lengths are modelled as character counts (identical on ASCII data). -/
def InsertPrefix (s pfx : List Char) (ctrl : Nat) (errCode : Int) (dec : Int) : List Char :=
  if pfx = [] then s
  else
    let ctrl := if ctrl &&& AlwaysInsert ≠ 0 then 0 else ctrl
    let pfx :=
      if errCode > 0 ∧ errCode ≠ dec then
        match splitOnChar ':' pfx with
        | [p0, p1] => p0 ++ (" #".data ++ (toString errCode).data ++ [':']) ++ p1
        | _ => pfx
      else pfx
    let spacePfx := List.replicate pfx.length ' '
    let lines := splitOnChar '\n' s
    joinWithChar '\n' (prefixLinesAux pfx spacePfx ctrl lines.length 0 lines)

/-! ## stackTraceWanted (out.go lines 1396-1461) -/

/-- Embeds the env-override parsing inside stackTraceWanted: the env string
PKG_OUT_STACK_TRACE_CONFIG replaces the programmatic config when it is a
comma list with exactly two entries; otherwise the programmatic config is
kept. -/
def resolveStackCfg (envVal : List Char) (progCfg : Nat) : Nat :=
  if envVal = [] then progCfg
  else
    let settings := splitOnChar ',' envVal
    if settings.length = 2 then
      settings.foldl (fun acc cur0 =>
        let cur := cur0.map Char.toLower
        if cur = "both".data then acc ||| ForBoth
        else if cur = "screen".data then acc ||| ForScreen
        else if cur = "logfile".data then acc ||| ForLogfile
        else if cur = "nonzeroerrorexit".data then acc ||| StackTraceNonZeroErrorExit
        else if cur = "errorexit".data then acc ||| StackTraceErrorExit
        else if cur = "allissues".data ∨ cur = "all".data then acc ||| StackTraceAllIssues
        else if cur = "off".data then 0
        else acc) 0
    else progCfg

/-- Embeds the decision core of stackTraceWanted, after the stack config has
been resolved (env override applied by resolveStackCfg): first the target mask
is checked, then the trigger classes are inspected in priority order. -/
def stackTraceWanted (stackCfg : Nat) (level : Int) (terminal : Bool) (exitVal : Int)
    (outputTgt : Nat) : Bool :=
  if stackCfg &&& outputTgt = 0 then false
  else if stackCfg &&& StackTraceNonZeroErrorExit ≠ 0 then
    if ¬terminal ∨ exitVal = 0 then false else true
  else if stackCfg &&& StackTraceErrorExit ≠ 0 then
    if ¬terminal ∨ level < LevelIssue then false else true
  else if stackCfg &&& StackTraceAllIssues ≠ 0 then
    if level < LevelIssue then false else true
  else false

/-! ## Data model: sinks, global state, channels, environment, call-site data -/

/-- Models an io.Writer sink: ok says whether Write calls on it succeed, and
contents accumulates the bytes written so far.  A failing sink reports zero
bytes written and a fixed error text (the concrete text of the underlying
io error is irrelevant to the engine). -/
structure Sink where
  ok : Bool
  contents : List Char
deriving DecidableEq

/-- Models the identity of an io.Writer handle held by a channel: os.Stdout,
os.Stderr, ioutil.Discard, or some other writer (a log file or buffer),
distinguished by a number. -/
inductive WriterId where
  | stdoutW : WriterId
  | stderrW : WriterId
  | discardW : WriterId
  | fileW : Nat → WriterId
deriving DecidableEq

/-- Embeds the package-global mutable state of out.go: the two thresholds, the
two newline-continuation booleans, the stack trace configuration, the error
exit value, whether a deferred hook is registered, the name-length padding
settings, the two target streams and the fallback error stream (os.Stderr).
The defaultErrCode field models the package global of the same name, declared
in a source file of this repository that is not under src/ (the spec calls it
the no-code sentinel); theorems about it quantify over its value. -/
structure OutState where
  screenThreshold : Int
  logThreshold : Int
  screenNewline : Bool
  logfileNewline : Bool
  stackTraceConfig : Nat
  errorExitVal : Int
  defaultErrCode : Int
  hookRegistered : Bool
  shortFileNameLength : Nat
  longFileNameLength : Nat
  shortFuncNameLength : Nat
  longFuncNameLength : Nat
  screen : Sink
  logfile : Sink
  stderrStream : List Char

/-- Embeds the bootstrap values of the globals (out.go lines 283-358): screen
threshold Info, logfile threshold Discard, both continuation flags true,
stack traces on non-zero exits to the logfile, error exit value -1, no
deferred hook, default padding lengths, empty working sinks. -/
def defaultState : OutState :=
  { screenThreshold := LevelInfo
    logThreshold := LevelDiscard
    screenNewline := true
    logfileNewline := true
    stackTraceConfig := StackTraceExitToLogfile
    errorExitVal := -1
    defaultErrCode := 100
    hookRegistered := false
    shortFileNameLength := 16
    longFileNameLength := 55
    shortFuncNameLength := 14
    longFuncNameLength := 30
    screen := { ok := true, contents := [] }
    logfile := { ok := true, contents := [] }
    stderrStream := [] }

/-- Models the formatter plugin contract (the Formatter interface, declared in
a source file of this repository that is not under src/; its shape is given by
the FormatMessage call in stringOutput): given the message, level, error code
and the dying flag it returns the replacement message, the apply mask, the
no-output mask and the skip-native-prefixing flag.  The metadata record passed
to the Go formatter is not modelled (no claim concerns its contents). -/
def Formatter : Type :=
  List Char → Int → Int → Bool → (List Char × Nat × Nat × Bool)

/-- Models a DetailedError value (the interface lives in a source file of this
repository that is not under src/).  Modelled from the spec: it supplies an
error code for prefix augmentation and a stack trace captured closer to its
origin. -/
structure DetErr where
  code : Int
  origStack : List Char

/-- Embeds one LvlOutput structure: level identity, prefix text, screen/logfile
writers and metadata flags, optional formatter plugin. -/
structure LvlCfg where
  level : Int
  pfx : List Char
  screenHndl : WriterId
  screenFlags : Nat
  logfileHndl : WriterId
  logFlags : Nat
  formatter : Option Formatter

/-- Models the environment variables the package reads at emission time. -/
structure Env where
  stackTraceCfg : List Char
  screenFlags : List Char
  logfileFlags : List Char
  debugScope : List Char
  smartFlagsPfx : List Char
  noExit : List Char

/-- Models an environment with none of the package's variables set. -/
def defaultEnv : Env :=
  { stackTraceCfg := [], screenFlags := [], logfileFlags := [], debugScope := []
    smartFlagsPfx := [], noExit := [] }

/-- Embeds a wall-clock instant as used by getFlagString. -/
structure TimeRec where
  year : Nat
  month : Nat
  day : Nat
  hour : Nat
  min : Nat
  sec : Nat
  nsec : Nat

/-- Models the data the Go runtime supplies to an emission: the call site
resolved by runtime.Caller (file, function, line), the pid, the current time
and the raw stack trace captured by runtime.Stack. -/
structure CallerInfo where
  file : List Char
  funcName : List Char
  line : Nat
  pid : Nat
  now : TimeRec
  stackTrace : List Char

/-- Models a fixed call-site record for concrete evaluations. -/
def defaultCI : CallerInfo :=
  { file := "main.go".data, funcName := "main.main".data, line := 10, pid := 616
    now := { year := 2015, month := 7, day := 25, hour := 1, min := 5, sec := 1, nsec := 0 }
    stackTrace := "goroutine 1 [running]".data }

/-- Embeds the bootstrap TRACE channel (out.go line 263). -/
def TRACE : LvlCfg :=
  { level := LevelTrace, pfx := "Trace: ".data, screenHndl := .stdoutW
    screenFlags := LscreenFlags, logfileHndl := .discardW, logFlags := LlogfileFlags
    formatter := none }

/-- Embeds the bootstrap DEBUG channel. -/
def DEBUG : LvlCfg :=
  { level := LevelDebug, pfx := "Debug: ".data, screenHndl := .stdoutW
    screenFlags := LscreenFlags, logfileHndl := .discardW, logFlags := LlogfileFlags
    formatter := none }

/-- Embeds the bootstrap VERBOSE channel. -/
def VERBOSE : LvlCfg :=
  { level := LevelVerbose, pfx := [], screenHndl := .stdoutW
    screenFlags := 0, logfileHndl := .discardW, logFlags := LlogfileFlags
    formatter := none }

/-- Embeds the bootstrap INFO channel. -/
def INFO : LvlCfg :=
  { level := LevelInfo, pfx := [], screenHndl := .stdoutW
    screenFlags := 0, logfileHndl := .discardW, logFlags := LlogfileFlags
    formatter := none }

/-- Embeds the bootstrap NOTE channel. -/
def NOTE : LvlCfg :=
  { level := LevelNote, pfx := "Note: ".data, screenHndl := .stdoutW
    screenFlags := 0, logfileHndl := .discardW, logFlags := LlogfileFlags
    formatter := none }

/-- Embeds the bootstrap ISSUE channel. -/
def ISSUE : LvlCfg :=
  { level := LevelIssue, pfx := "Issue: ".data, screenHndl := .stdoutW
    screenFlags := 0, logfileHndl := .discardW, logFlags := LlogfileFlags
    formatter := none }

/-- Embeds the bootstrap ERROR channel (screen handle os.Stderr). -/
def ERROR : LvlCfg :=
  { level := LevelError, pfx := "Error: ".data, screenHndl := .stderrW
    screenFlags := 0, logfileHndl := .discardW, logFlags := LlogfileFlags
    formatter := none }

/-- Embeds the bootstrap FATAL channel (screen handle os.Stderr). -/
def FATAL : LvlCfg :=
  { level := LevelFatal, pfx := "Fatal: ".data, screenHndl := .stderrW
    screenFlags := 0, logfileHndl := .discardW, logFlags := LlogfileFlags
    formatter := none }

/-- Embeds the outputters array (out.go line 281). -/
def defaultOutputters : List LvlCfg :=
  [TRACE, DEBUG, VERBOSE, INFO, NOTE, ISSUE, ERROR, FATAL]

/-! ## Metadata composer (itoa, getFlagString; out.go lines 1519-1622) -/

/-- Embeds the digit-assembly loop of itoa: emits digits of u in reverse order
while u is positive or width remains (zero padding up to the width). -/
def itoaCore (u : Nat) (wid : Int) (acc : List Char) : List Char :=
  if u > 0 ∨ wid > 0 then
    itoaCore (u / 10) (wid - 1) (Char.ofNat (u % 10 + 48) :: acc)
  else acc
termination_by u + wid.toNat
decreasing_by
  rcases Nat.eq_zero_or_pos u with h | h
  · subst h
    simp only [Nat.zero_div]
    omega
  · have := Nat.div_lt_self h (by omega : 1 < 10)
    omega

/-- Embeds itoa(buf, i, wid): fixed-width decimal (negative width avoids zero
padding); i is non-negative in every call site of the package. -/
def itoaGo (i : Nat) (wid : Int) : List Char :=
  if i = 0 ∧ wid ≤ 1 then ['0'] else itoaCore i wid []

/-- Embeds the %-Ns left-justified space padding of fmt (byte width modelled
as character count). -/
def padRight (l : List Char) (n : Nat) : List Char :=
  l ++ List.replicate (n - l.length) ' '

/-- Embeds the Level String() method (out.go lines 520-534): the code name of
the level after levelCheck clamping. -/
def levelString (l : Int) : List Char :=
  let lc := levelCheck l
  if lc = LevelTrace then "TRACE".data
  else if lc = LevelDebug then "DEBUG".data
  else if lc = LevelVerbose then "VERBOSE".data
  else if lc = LevelInfo then "INFO".data
  else if lc = LevelNote then "NOTE".data
  else if lc = LevelIssue then "ISSUE".data
  else if lc = LevelError then "ERROR".data
  else if lc = LevelFatal then "FATAL".data
  else "DISCARD".data

/-- Embeds the filename-shortening loop of getFlagString (out.go lines
1580-1587): the suffix after the last slash, provided that slash is not at
index 0. -/
def lastSlashPos : List Char → Option Nat
  | [] => none
  | a :: rest =>
    match lastSlashPos rest with
    | some i => some (i + 1)
    | none => if a = '/' then some 0 else none

/-- Embeds the short-file computation: file after its last slash (a slash at
index 0 is not used, matching the loop bound i greater than 0). -/
def shortenFile (file : List Char) : List Char :=
  match lastSlashPos file with
  | some i => if i > 0 then file.drop (i + 1) else file
  | none => file

/-- Embeds the short-function computation (out.go lines 1596-1602): the last
dot-separated component, or three question marks if there is no dot. -/
def lastDotComponent (fn : List Char) : List Char :=
  let parts := splitOnChar '.' fn
  if parts.length > 1 then parts.getLastD [] else "???".data

/-- Embeds getFlagString: builds the metadata leader (pid, level tag, date,
time, file/function/line with padding) from the flags. -/
def getFlagString (st : OutState) (flags : Nat) (level : Int) (funcName file : List Char)
    (line : Nat) (t : TimeRec) (pid : Nat) : List Char :=
  let buf : List Char := []
  let buf := if flags &&& Lpid ≠ 0 then buf ++ '[' :: itoaGo pid 1 ++ "] ".data else buf
  let buf := if flags &&& Llevel ≠ 0 then buf ++ padRight (levelString level) 8 else buf
  let buf :=
    if flags &&& (Ldate ||| Ltime ||| Lmicroseconds) ≠ 0 then
      let buf :=
        if flags &&& Ldate ≠ 0 then
          buf ++ itoaGo t.year 4 ++ ['/'] ++ itoaGo t.month 2 ++ ['/'] ++ itoaGo t.day 2 ++ [' ']
        else buf
      if flags &&& (Ltime ||| Lmicroseconds) ≠ 0 then
        let b := buf ++ itoaGo t.hour 2 ++ [':'] ++ itoaGo t.min 2 ++ [':'] ++ itoaGo t.sec 2
        let b := if flags &&& Lmicroseconds ≠ 0 then b ++ ['.'] ++ itoaGo (t.nsec / 1000) 6 else b
        b ++ [' ']
      else buf
    else buf
  if flags &&& (Lshortfile ||| Llongfile) ≠ 0 then
    let formatLen := st.longFileNameLength
    let fl := if flags &&& Lshortfile ≠ 0 then (st.shortFileNameLength, shortenFile file)
              else (formatLen, file)
    let tmp := fl.2 ++ [':'] ++ itoaGo line (-1)
    let ft :=
      if flags &&& Lshortfunc ≠ 0 then
        (fl.1 + st.shortFuncNameLength, tmp ++ [':'] ++ lastDotComponent funcName)
      else if flags &&& Llongfunc ≠ 0 then
        (fl.1 + st.longFuncNameLength, tmp ++ [':'] ++ funcName)
      else (fl.1, tmp ++ [' '])
    buf ++ padRight ft.2 ft.1 ++ ": ".data
  else buf

/-- Embeds determineFlags (out.go lines 1628-1664): turns a comma-separated
env flag string into a flags value.  The break in the off case of the Go
switch leaves the loop running, so entries after off still add flags. -/
def determineFlags (flagStr : List Char) : Nat :=
  (splitOnChar ',' flagStr).foldl (fun flags cur =>
    if cur = "debug".data then
      flags ||| (Llevel ||| Ltime ||| Lmicroseconds ||| Lshortfile ||| Lshortfunc)
    else if cur = "all".data then
      flags ||| (Lpid ||| Llevel ||| Ldate ||| Ltime ||| Lmicroseconds ||| Lshortfile ||| Lshortfunc)
    else if cur = "longall".data then
      flags ||| (Lpid ||| Llevel ||| Ldate ||| Ltime ||| Lmicroseconds ||| Llongfile ||| Llongfunc)
    else if cur = "pid".data then flags ||| Lpid
    else if cur = "level".data then flags ||| Llevel
    else if cur = "date".data then flags ||| Ldate
    else if cur = "time".data then flags ||| Ltime
    else if cur = "micro".data ∨ cur = "microseconds".data then flags ||| Lmicroseconds
    else if cur = "file".data ∨ cur = "shortfile".data then flags ||| Lshortfile
    else if cur = "longfile".data then flags ||| Llongfile
    else if cur = "func".data ∨ cur = "shortfunc".data then flags ||| Lshortfunc
    else if cur = "longfunc".data then flags ||| Llongfunc
    else if cur = "off".data then 0
    else flags) 0

/-- Embeds insertFlagMetadata (out.go lines 1684-1779): selects the flags for
the target (env override wins unless ignoreEnv), evaluates the debug-scope
suppression filter, builds the leader with getFlagString and prefixes it onto
the string.  The FlagMetadata record returned by the Go method is not
modelled (no claim concerns it); runtime.Caller is modelled by ci; the Go
method hits its fatal path on a target with neither bit set, which cannot be
reached from the valid-target call sites modelled here (that arm yields flags
zero). -/
def insertFlagMetadata (o : LvlCfg) (env : Env) (ci : CallerInfo) (s : List Char)
    (outputTgt ctrl : Nat) (overrideFlags : Option Nat) (ignoreEnv : Bool)
    (st : OutState) : List Char × Bool :=
  let sF := match overrideFlags with | some f => f | none => o.screenFlags
  let lF := match overrideFlags with | some f => f | none => o.logFlags
  let flags :=
    if outputTgt &&& ForScreen ≠ 0 then
      if ¬ignoreEnv ∧ env.screenFlags ≠ [] then determineFlags env.screenFlags else sF
    else if outputTgt &&& ForLogfile ≠ 0 then
      if ¬ignoreEnv ∧ env.logfileFlags ≠ [] then determineFlags env.logfileFlags else lF
    else 0
  let needCaller :=
    flags &&& (Lshortfile ||| Llongfile ||| Lshortfunc ||| Llongfunc) ≠ 0 ∨
      (¬ignoreEnv ∧ env.debugScope ≠ [])
  let suppressOutput :=
    if ¬ignoreEnv ∧ ci.funcName ≠ "???".data ∧ env.debugScope ≠ [] ∧
        (o.level = LevelDebug ∨ o.level = LevelTrace) then
      !(splitOnChar ',' env.debugScope).any (fun part => substrContains ci.funcName part)
    else false
  let leader :=
    if needCaller then getFlagString st flags o.level ci.funcName ci.file ci.line ci.now ci.pid
    else getFlagString st flags o.level [] [] 0 ci.now ci.pid
  if leader = [] then (s, suppressOutput)
  else (InsertPrefix s leader ctrl 0 st.defaultErrCode, suppressOutput)

/-! ## doPrefixing (out.go lines 1848-1890) -/

/-- Embeds getStackTrace (out.go lines 1199-1220): a DetailedError supplies its
own innermost stack trace, otherwise the freshly captured runtime trace
(modelled by ci.stackTrace) is used; either is wrapped in the Stack Trace
banner. -/
def getStackTrace (detErr : Option DetErr) (ci : CallerInfo) : List Char :=
  match detErr with
  | some d => "\nStack Trace: ".data ++ d.origStack ++ ['\n']
  | none => "\nStack Trace: ".data ++ ci.stackTrace ++ ['\n']

/-- Embeds doPrefixing: reads the target's newline-continuation flag, ors
SkipFirstLine into a SmartInsert control when the stream is mid-line, inserts
the channel prefix (with the detailed error's code if present, else the
no-code sentinel), optionally forces AlwaysInsert when the smart-prefix env
switch is off, then inserts the flag metadata.  The Go method hits its fatal
path on a target with neither bit set, which cannot be reached from the
valid-target call sites modelled here (that arm reads the zero value false). -/
def doPrefixing (o : LvlCfg) (env : Env) (ci : CallerInfo) (s : List Char)
    (outputTgt ctrl : Nat) (detErr : Option DetErr) (checkSuppressOnly : Bool)
    (st : OutState) : List Char × Bool :=
  let origString := s
  let onNewline :=
    if outputTgt &&& ForScreen ≠ 0 then st.screenNewline
    else if outputTgt &&& ForLogfile ≠ 0 then st.logfileNewline
    else false
  let ctrl := if ¬onNewline ∧ ctrl &&& SmartInsert ≠ 0 then ctrl ||| SkipFirstLine else ctrl
  let errCode := match detErr with | some d => d.code | none => st.defaultErrCode
  let s := InsertPrefix s o.pfx ctrl errCode st.defaultErrCode
  let ctrl := if env.smartFlagsPfx = "off".data then AlwaysInsert else ctrl
  let r := insertFlagMetadata o env ci s outputTgt ctrl none false st
  if checkSuppressOnly then (origString, r.2) else r

/-! ## writeOutput (out.go lines 1905-1970) -/

/-- Models one Write call on a sink: a healthy sink accepts all bytes, a broken
one reports zero bytes and an error. -/
def sinkWrite (sk : Sink) (s : List Char) : Sink × Nat × Option (List Char) :=
  if sk.ok then ({ sk with contents := sk.contents ++ s }, s.length, none)
  else (sk, 0, some "write error".data)

/-- Reads the sink selected by writeOutput's target test. -/
def getSink (st : OutState) (tgtScreen : Bool) : Sink :=
  if tgtScreen then st.screen else st.logfile

/-- Stores back the sink selected by writeOutput's target test. -/
def putSink (st : OutState) (tgtScreen : Bool) (sk : Sink) : OutState :=
  if tgtScreen then { st with screen := sk } else { st with logfile := sk }

/-- Stores the newline-continuation flag selected by writeOutput's target
test. -/
def putNl (st : OutState) (tgtScreen : Bool) (b : Bool) : OutState :=
  if tgtScreen then { st with screenNewline := b } else { st with logfileNewline := b }

/-- Result of the embedded writeOutput: updated state, bytes written, the
error value (if any), and whether the Go code would have panicked (index out
of range on an empty string). -/
structure WriteRes where
  st : OutState
  n : Nat
  err : Option (List Char)
  panicked : Bool

/-- Embeds the stack-trace tail of writeOutput (out.go lines 1956-1968): when
the policy wants a trace for this target it is written after the message. -/
def stackStep (o : LvlCfg) (env : Env) (st : OutState) (n : Nat) (tgtScreen : Bool)
    (tgtString : List Char) (dying : Bool) (exitVal : Int) (outputTgt : Nat)
    (stacktrace : List Char) : WriteRes :=
  if stackTraceWanted (resolveStackCfg env.stackTraceCfg st.stackTraceConfig) o.level
      dying exitVal outputTgt then
    let w := sinkWrite (getSink st tgtScreen) stacktrace
    let st1 := putSink st tgtScreen w.1
    match w.2.2 with
    | some e =>
      { st := st1, n := n + w.2.1
        err := some (o.pfx ++ "Error writing stacktrace to ".data ++ tgtString ++
          " output handle:\n".data ++ e ++ ['\n'])
        panicked := false }
    | none => { st := st1, n := n + w.2.1, err := none, panicked := false }
  else { st := st, n := n, err := none, panicked := false }

/-- Embeds writeOutput: writes the composed string to the target's sink,
reports a write failure as an error value, otherwise updates the target's
newline-continuation flag from the last character written (the Go index
expression panics on an empty string, recorded in the panicked flag), writes
a corrective newline for a dying emission that did not end on one, and
finally writes the stack trace when the policy asks for it. -/
def writeOutput (o : LvlCfg) (env : Env) (s : List Char) (outputTgt : Nat) (dying : Bool)
    (exitVal : Int) (stacktrace : List Char) (st : OutState) : WriteRes :=
  let tgtScreen : Bool := outputTgt &&& ForScreen == 1
  let tgtString := if tgtScreen then "screen".data else "logfile".data
  let w := sinkWrite (getSink st tgtScreen) s
  let st1 := putSink st tgtScreen w.1
  match w.2.2 with
  | some e =>
    { st := st1, n := w.2.1
      err := some (o.pfx ++ "Error writing to ".data ++ tgtString ++
        " output handler:\n".data ++ e ++ "\noutput:\n".data ++ s ++ ['\n'])
      panicked := false }
  | none =>
    if s = [] then { st := st1, n := w.2.1, err := none, panicked := true }
    else
      let nlFlag : Bool := s.getLast? == some '\n'
      let st2 := putNl st1 tgtScreen nlFlag
      if dying ∧ ¬nlFlag then
        let w2 := sinkWrite (getSink st2 tgtScreen) ['\n']
        let st3 := putSink st2 tgtScreen w2.1
        match w2.2.2 with
        | some e =>
          { st := st3, n := w.2.1 + w2.2.1
            err := some (o.pfx ++ "Error writing newline to ".data ++ tgtString ++
              " output handler:\n".data ++ e ++ ['\n'])
            panicked := false }
        | none =>
          let st4 := putNl st3 tgtScreen true
          stackStep o env st4 (w.2.1 + w2.2.1) tgtScreen tgtString dying exitVal outputTgt
            stacktrace
      else
        stackStep o env st2 w.2.1 tgtScreen tgtString dying exitVal outputTgt stacktrace

/-! ## stringOutput (out.go lines 1982-2118) -/

/-- Embeds the per-target emission gate of stringOutput (the spec names this
test shouldEmit): output reaches a target only when the level passes the
target's threshold and is not the Discard sentinel. -/
def shouldEmit (level threshold : Int) : Bool :=
  decide (level ≥ threshold) && decide (level ≠ LevelDiscard)

/-- Embeds one target block of stringOutput (the screen block, lines
2069-2085, and the structurally identical logfile block, lines 2088-2103):
gate on threshold and formatter mask, prefix the message and the pending
stack trace, skip a debug-scope-suppressed line, otherwise write.  Returns
the updated state, the length written, the error and the panic flag. -/
def targetBlock (o : LvlCfg) (env : Env) (ci : CallerInfo) (str : List Char)
    (tgt noMask : Nat) (skipNativePfx : Bool) (tgtStack : List Char) (dying : Bool)
    (exitVal : Int) (detErr : Option DetErr) (threshold : Int) (st : OutState) :
    OutState × Nat × Option (List Char) × Bool :=
  if shouldEmit o.level threshold && (noMask &&& tgt == 0) then
    let p := doPrefixing o env ci str tgt SmartInsert detErr skipNativePfx st
    if p.2 then (st, 0, none, false)
    else
      let pfxStack :=
        if tgtStack ≠ [] then
          (doPrefixing o env ci tgtStack tgt SmartInsert detErr skipNativePfx st).1
        else []
      let wr := writeOutput o env p.1 tgt dying exitVal pfxStack st
      (wr.st, wr.n, wr.err, wr.panicked)
  else (st, 0, none, false)

/-- Result of an embedded emission: final state, total length written, the
error value stringOutput returned, the arguments passed to the deferred hook
(in order), the os.Exit code if the process would have exited, and whether
the Go code would have panicked. -/
structure EmitOut where
  st : OutState
  n : Nat
  err : Option (List Char)
  hookCalls : List Int
  exitCode : Option Int
  panicked : Bool

/-- Embeds stringOutput: resolves the stack trace once and masks it per target
by the policy, lets a registered formatter rewrite or suppress per-target
output, runs the screen block then the logfile block, and for a dying
emission finally invokes the deferred hook and exits — with the package
errorExitVal, not the exitVal argument — unless the no-exit test-mode env
variable is set to 1.  A write error returns early, before the dying tail. -/
def stringOutput (o : LvlCfg) (env : Env) (ci : CallerInfo) (s : List Char) (dying : Bool)
    (exitVal : Int) (detErr : Option DetErr) (st : OutState) : EmitOut :=
  let level := o.level
  let cfg := resolveStackCfg env.stackTraceCfg st.stackTraceConfig
  let stackStr := if level ≥ LevelIssue then getStackTrace detErr ci else []
  let screenStackTrace :=
    if level ≥ LevelIssue ∧ stackTraceWanted cfg level dying exitVal ForScreen then stackStr
    else []
  let logfileStackTrace :=
    if level ≥ LevelIssue ∧ stackTraceWanted cfg level dying exitVal ForLogfile then stackStr
    else []
  let fm :=
    match o.formatter with
    | none => (s, s, 0, 0, false, false)
    | some f =>
      let code := match detErr with | some d => d.code | none => st.defaultErrCode
      let r := f s level code dying
      let scr := if r.2.1 &&& ForScreen ≠ 0 then (r.1, r.2.2.1, r.2.2.2) else (s, 0, false)
      let lg := if r.2.1 &&& ForLogfile ≠ 0 then (r.1, r.2.2.1, r.2.2.2) else (s, 0, false)
      (scr.1, lg.1, scr.2.1, lg.2.1, scr.2.2, lg.2.2)
  let sb := targetBlock o env ci fm.1 ForScreen fm.2.2.1 fm.2.2.2.2.1 screenStackTrace
    dying exitVal detErr st.screenThreshold st
  if sb.2.2.2 then
    { st := sb.1, n := sb.2.1, err := none, hookCalls := [], exitCode := none, panicked := true }
  else
    match sb.2.2.1 with
    | some e =>
      { st := sb.1, n := sb.2.1, err := some e, hookCalls := [], exitCode := none
        panicked := false }
    | none =>
      let lb := targetBlock o env ci fm.2.1 ForLogfile fm.2.2.2.1 fm.2.2.2.2.2
        logfileStackTrace dying exitVal detErr sb.1.logThreshold sb.1
      if lb.2.2.2 then
        { st := lb.1, n := lb.2.1 + sb.2.1, err := none, hookCalls := [], exitCode := none
          panicked := true }
      else
        match lb.2.2.1 with
        | some e =>
          { st := lb.1, n := lb.2.1 + sb.2.1, err := some e, hookCalls := [], exitCode := none
            panicked := false }
        | none =>
          if dying then
            { st := lb.1, n := lb.2.1 + sb.2.1, err := none
              hookCalls := if lb.1.hookRegistered then [lb.1.errorExitVal] else []
              exitCode := if env.noExit ≠ "1".data then some lb.1.errorExitVal else none
              panicked := false }
          else
            { st := lb.1, n := lb.2.1 + sb.2.1, err := none, hookCalls := []
              exitCode := none, panicked := false }

/-- Embeds the shared error handling of the output, outputln and outputf
methods (out.go lines 1311-1327): a non-nil error from stringOutput is
printed to os.Stderr, then the deferred hook runs with the package
errorExitVal and the process exits with it unless the no-exit test-mode env
variable is set to 1. -/
def outputCall (o : LvlCfg) (env : Env) (ci : CallerInfo) (msg : List Char) (terminal : Bool)
    (exitVal : Int) (detErr : Option DetErr) (st : OutState) : EmitOut :=
  let r := stringOutput o env ci msg terminal exitVal detErr st
  match r.err with
  | some e =>
    let st1 := { r.st with stderrStream := r.st.stderrStream ++ e }
    { r with
      st := st1
      hookCalls := r.hookCalls ++ (if st1.hookRegistered then [st1.errorExitVal] else [])
      exitCode := if env.noExit ≠ "1".data then some st1.errorExitVal else r.exitCode }
  | none => r

/-! ## Public emission surface used by the claims (the msg argument is the
string the fmt call of the Go wrapper produced) -/

/-- Embeds IssueExit (out.go lines 857-862): a terminal Issue-level emission
with an explicit exit value. -/
def IssueExit (env : Env) (ci : CallerInfo) (exitVal : Int) (msg : List Char)
    (st : OutState) : EmitOut :=
  outputCall ISSUE env ci msg true exitVal none st

/-- Embeds ErrorExit (out.go lines 883-888): a terminal Error-level emission
with an explicit exit value. -/
def ErrorExit (env : Env) (ci : CallerInfo) (exitVal : Int) (msg : List Char)
    (st : OutState) : EmitOut :=
  outputCall ERROR env ci msg true exitVal none st

/-- Embeds Fatal (out.go lines 893-899): a terminal Fatal-level emission whose
exit value is the package errorExitVal. -/
def Fatal (env : Env) (ci : CallerInfo) (msg : List Char) (st : OutState) : EmitOut :=
  outputCall FATAL env ci msg true st.errorExitVal none st

/-- Embeds Print (out.go lines 813-819): a non-terminal Info-level emission;
with no arguments the fmt.Sprint message is empty. -/
def PrintCall (env : Env) (ci : CallerInfo) (msg : List Char) (st : OutState) : EmitOut :=
  outputCall INFO env ci msg false 0 none st

/-! ## Configuration operations (out.go lines 396-426, 608-693) -/

/-- Embeds SetThreshold (out.go lines 413-426): each selected target's
threshold is set to the levelCheck-clamped level. -/
def SetThreshold (level : Int) (outputTgt : Nat) (st : OutState) : OutState :=
  let st1 :=
    if outputTgt &&& ForScreen ≠ 0 then { st with screenThreshold := levelCheck level }
    else st
  if outputTgt &&& ForLogfile ≠ 0 then { st1 with logThreshold := levelCheck level }
  else st1

/-- Embeds the search loop of Flags (out.go lines 611-628): first channel whose
level equals the (already clamped) query level supplies the flags for the
requested target.  The Go function hits its fatal path on a target with
neither bit set; that arm keeps the zero value, matching the Go flow when the
exit is test-mode suppressed. -/
def flagsLoop (lc : Int) (outputTgt : Nat) : List LvlCfg → Nat
  | [] => 0
  | o :: rest =>
    if o.level = lc then
      if outputTgt &&& ForScreen ≠ 0 then o.screenFlags
      else if outputTgt &&& ForLogfile ≠ 0 then o.logFlags
      else 0
    else flagsLoop lc outputTgt rest

/-- Embeds Flags (out.go lines 608-629): clamps the level with levelCheck and
reads the matching channel's flags for the target. -/
def Flags (level : Int) (outputTgt : Nat) (os : List LvlCfg) : Nat :=
  flagsLoop (levelCheck level) outputTgt os

/-- Embeds SetFlags (out.go lines 636-652): sets the flags of the channel
whose level equals the given level exactly (no levelCheck clamping), or of
every channel when the level is LevelAll; the loop breaks after a single
exact match. -/
def SetFlagsList (level : Int) (flags : Nat) (outputTgt : Nat) : List LvlCfg → List LvlCfg
  | [] => []
  | o :: rest =>
    if level = LevelAll ∨ o.level = level then
      let o1 := if outputTgt &&& ForScreen ≠ 0 then { o with screenFlags := flags } else o
      let o2 := if outputTgt &&& ForLogfile ≠ 0 then { o1 with logFlags := flags } else o1
      if level ≠ LevelAll then o2 :: rest
      else o2 :: SetFlagsList level flags outputTgt rest
    else o :: SetFlagsList level flags outputTgt rest

/-- Embeds the accumulation loop of Writer (out.go lines 660-671): starting
from ioutil.Discard, a channel whose level matches overwrites the result with
its screen handle when the screen bit is set and then with its logfile handle
when the logfile bit is set (so the logfile selection takes precedence). -/
def writerLoop (lc : Int) (outputTgt : Nat) : List LvlCfg → WriterId → WriterId
  | [], w => w
  | o :: rest, w =>
    let w1 :=
      if o.level = lc then
        let wScr := if outputTgt &&& ForScreen ≠ 0 then o.screenHndl else w
        if outputTgt &&& ForLogfile ≠ 0 then o.logfileHndl else wScr
      else w
    writerLoop lc outputTgt rest w1

/-- Embeds Writer (out.go lines 657-673): clamps the level and folds over the
channels; with no target bit set the initial ioutil.Discard survives, and
there is no fatal path for an invalid target. -/
def Writer (level : Int) (outputTgt : Nat) (os : List LvlCfg) : WriterId :=
  writerLoop (levelCheck level) outputTgt os .discardW

/-- Follows the spec's words on error-code splicing (section 4.1): when an
error code is supplied (positive and different from the no-code sentinel) and
the prefix contains exactly one colon, the code is spliced in immediately
before that colon; otherwise the prefix is unchanged.  Used to state the
splicing and characterization claims against the embedded InsertPrefix. -/
def spliceErrCode (pfx : List Char) (errCode dec : Int) : List Char :=
  if errCode > 0 ∧ errCode ≠ dec then
    match splitOnChar ':' pfx with
    | [p0, p1] => p0 ++ (" #".data ++ (toString errCode).data ++ [':']) ++ p1
    | _ => pfx
  else pfx

/-- Agreement of two states on every field the screen target owns or reads
(used to show the logfile path leaves the screen target alone). -/
def agreesOnScreen (a b : OutState) : Prop :=
  a.screen = b.screen ∧ a.screenNewline = b.screenNewline ∧
  a.screenThreshold = b.screenThreshold ∧ a.logThreshold = b.logThreshold ∧
  a.errorExitVal = b.errorExitVal ∧ a.hookRegistered = b.hookRegistered ∧
  a.stderrStream = b.stderrStream ∧ a.defaultErrCode = b.defaultErrCode ∧
  a.stackTraceConfig = b.stackTraceConfig

/-- Agreement of two states on every field the logfile target owns or reads. -/
def agreesOnLogfile (a b : OutState) : Prop :=
  a.logfile = b.logfile ∧ a.logfileNewline = b.logfileNewline ∧
  a.screenThreshold = b.screenThreshold ∧ a.logThreshold = b.logThreshold ∧
  a.errorExitVal = b.errorExitVal ∧ a.hookRegistered = b.hookRegistered ∧
  a.stderrStream = b.stderrStream ∧ a.defaultErrCode = b.defaultErrCode ∧
  a.stackTraceConfig = b.stackTraceConfig

/-! ## Claim C3: stack trace policy -/

/-- Claim C3: stackTraceWanted returns false whenever the configured target bit
for the queried target is absent; otherwise the trigger bits are checked in
priority order — with NonZeroExit set the result is true exactly when the
emission is terminal with a non-zero exit value; else with AnyExit set, true
exactly when terminal at Issue level or above; else with AllIssues set, true
exactly at Issue level or above; with no trigger bit, false.  For the config
logfile+NonZeroExit: (terminal, exit 2, logfile) is true, (terminal, exit 0,
logfile) is false, (non-terminal, exit 2, logfile) is false, and every screen
query is false. -/
theorem stackTraceWanted_policy (cfg : Nat) (level : Int) (terminal : Bool) (exitVal : Int)
    (tgt : Nat) :
    (cfg &&& tgt = 0 → stackTraceWanted cfg level terminal exitVal tgt = false) ∧
    (cfg &&& tgt ≠ 0 → cfg &&& StackTraceNonZeroErrorExit ≠ 0 →
      (stackTraceWanted cfg level terminal exitVal tgt = true ↔
        terminal = true ∧ exitVal ≠ 0)) ∧
    (cfg &&& tgt ≠ 0 → cfg &&& StackTraceNonZeroErrorExit = 0 →
      cfg &&& StackTraceErrorExit ≠ 0 →
      (stackTraceWanted cfg level terminal exitVal tgt = true ↔
        terminal = true ∧ LevelIssue ≤ level)) ∧
    (cfg &&& tgt ≠ 0 → cfg &&& StackTraceNonZeroErrorExit = 0 →
      cfg &&& StackTraceErrorExit = 0 → cfg &&& StackTraceAllIssues ≠ 0 →
      (stackTraceWanted cfg level terminal exitVal tgt = true ↔ LevelIssue ≤ level)) ∧
    (cfg &&& StackTraceNonZeroErrorExit = 0 → cfg &&& StackTraceErrorExit = 0 →
      cfg &&& StackTraceAllIssues = 0 →
      stackTraceWanted cfg level terminal exitVal tgt = false) ∧
    (stackTraceWanted StackTraceExitToLogfile level true 2 ForLogfile = true) ∧
    (stackTraceWanted StackTraceExitToLogfile level true 0 ForLogfile = false) ∧
    (stackTraceWanted StackTraceExitToLogfile level false 2 ForLogfile = false) ∧
    (stackTraceWanted StackTraceExitToLogfile level terminal exitVal ForScreen = false) := by
  unfold stackTraceWanted StackTraceExitToLogfile StackTraceNonZeroErrorExit
    StackTraceErrorExit StackTraceAllIssues ForLogfile ForScreen LevelIssue
  refine ⟨?_, ?_, ?_, ?_, ?_, ?_, ?_, ?_, ?_⟩ <;> intros <;> cases terminal <;> split_ifs <;>
    first
      | rfl
      | omega
      | simp_all

/-- Witness for C3 at concrete inputs: config logfile+NonZeroExit, Fatal level,
terminal with exit value 2, queried for the logfile target. -/
theorem stackTraceWanted_policy_witness :
    StackTraceExitToLogfile &&& ForLogfile ≠ 0 ∧
    stackTraceWanted StackTraceExitToLogfile LevelFatal true 2 ForLogfile = true := by
  exact ⟨by decide,
    ((stackTraceWanted_policy StackTraceExitToLogfile LevelFatal true 2
      ForLogfile).2.1 (by decide) (by decide)).2 ⟨rfl, by decide⟩⟩

/-! ## Claim C10: Writer target selection -/

/-- With neither target bit set the Writer accumulation loop never overwrites
its accumulator. -/
theorem writerLoop_no_bits (lc : Int) (tgt : Nat) (h1 : tgt &&& ForScreen = 0)
    (h2 : tgt &&& ForLogfile = 0) :
    ∀ (os : List LvlCfg) (w : WriterId), writerLoop lc tgt os w = w := by
  intro os
  induction os with
  | nil => intro w; rfl
  | cons o rest ih =>
    intro w
    simp only [writerLoop, h1, h2, ne_eq, not_true_eq_false, if_false, ite_self,
      not_false_eq_true]
    exact ih w

/-- With both target bits set the Writer accumulation loop behaves exactly as
with only the logfile bit set: on a level match the logfile handle overwrites
whatever the screen bit selected. -/
theorem writerLoop_both_bits (lc : Int) (tgt : Nat) (h1 : tgt &&& ForScreen ≠ 0)
    (h2 : tgt &&& ForLogfile ≠ 0) :
    ∀ (os : List LvlCfg) (w : WriterId),
      writerLoop lc tgt os w = writerLoop lc ForLogfile os w := by
  intro os
  induction os with
  | nil => intro w; rfl
  | cons o rest ih =>
    intro w
    simp only [writerLoop, h1, h2, ne_eq, not_false_eq_true, if_true]
    split_ifs with hl <;> simp_all [ForLogfile, ForScreen] <;> exact ih _

/-- Claim C10: Writer never reaches a fatal path for an invalid target — with
neither the ForScreen nor the ForLogfile bit set it returns the discarding
writer, and with both bits set the result coincides with the pure logfile
selection (the logfile handle takes precedence over the screen handle). -/
theorem writer_target_selection (level : Int) (tgt : Nat) (os : List LvlCfg) :
    (tgt &&& ForScreen = 0 → tgt &&& ForLogfile = 0 →
      Writer level tgt os = WriterId.discardW) ∧
    (tgt &&& ForScreen ≠ 0 → tgt &&& ForLogfile ≠ 0 →
      Writer level tgt os = Writer level ForLogfile os) := by
  constructor
  · intro h1 h2
    exact writerLoop_no_bits (levelCheck level) tgt h1 h2 os .discardW
  · intro h1 h2
    exact writerLoop_both_bits (levelCheck level) tgt h1 h2 os .discardW

/-- Witness for C10 at concrete inputs: an Issue-level query with no target
bits yields the discarding writer, and a both-bits query on the default
channels equals the logfile-only query. -/
theorem writer_target_selection_witness :
    Writer LevelIssue 0 defaultOutputters = WriterId.discardW ∧
    Writer LevelIssue ForBoth defaultOutputters =
      Writer LevelIssue ForLogfile defaultOutputters := by
  exact ⟨(writer_target_selection LevelIssue 0 defaultOutputters).1 (by decide) (by decide),
    (writer_target_selection LevelIssue ForBoth defaultOutputters).2 (by decide) (by decide)⟩

/-! ## Claim C8: level clamping -/

/-- SetFlags skips a channel whose level does not match the given level
exactly (and the given level is not the bulk selector). -/
theorem setFlagsList_skip (level : Int) (flags tgt : Nat) (o : LvlCfg) (os : List LvlCfg)
    (h : ¬(level = LevelAll ∨ o.level = level)) :
    SetFlagsList level flags tgt (o :: os) = o :: SetFlagsList level flags tgt os := by
  simp only [SetFlagsList, h, if_false]

/-- Counterexample to claim C8 as stated: SetFlags is a flag-set operation, but
it does not clamp its level argument — passing level -1 (below LevelTrace)
leaves every channel unchanged, while passing LevelTrace (the clamped value)
sets the Trace channel's screen flags, so the two calls differ. -/
theorem setFlags_clamp_counterexample :
    (SetFlagsList (-1) 42 ForScreen defaultOutputters).map LvlCfg.screenFlags ≠
      (SetFlagsList LevelTrace 42 ForScreen defaultOutputters).map LvlCfg.screenFlags := by
  decide

/-- Claim C8 (amended): level values passed to the threshold set operation and
the flag query are clamped rather than rejected (at or below LevelTrace is
treated as LevelTrace, at or above LevelDiscard as LevelDiscard), so after
SetThreshold the stored threshold for each selected target equals the nearest
valid level; the flag set operation SetFlags, however, matches the passed
level exactly and leaves every channel unchanged for an out-of-range level
other than the LevelAll selector. -/
theorem level_clamping_amended (level : Int) (flags tgt : Nat) (st : OutState)
    (os : List LvlCfg) :
    (level ≤ LevelTrace → levelCheck level = LevelTrace) ∧
    (LevelDiscard ≤ level → levelCheck level = LevelDiscard) ∧
    (LevelTrace < level → level < LevelDiscard → levelCheck level = level) ∧
    (tgt &&& ForScreen ≠ 0 → (SetThreshold level tgt st).screenThreshold = levelCheck level) ∧
    (tgt &&& ForScreen = 0 → (SetThreshold level tgt st).screenThreshold = st.screenThreshold) ∧
    (tgt &&& ForLogfile ≠ 0 → (SetThreshold level tgt st).logThreshold = levelCheck level) ∧
    (tgt &&& ForLogfile = 0 → (SetThreshold level tgt st).logThreshold = st.logThreshold) ∧
    (Flags level tgt os = Flags (levelCheck level) tgt os) ∧
    ((level < LevelTrace ∨ LevelDiscard ≤ level) → level ≠ LevelAll →
      SetFlagsList level flags tgt defaultOutputters = defaultOutputters) := by
  have hclamp : ∀ l : Int, levelCheck (levelCheck l) = levelCheck l := by
    intro l
    unfold levelCheck LevelTrace LevelDiscard
    split_ifs <;> omega
  refine ⟨?_, ?_, ?_, ?_, ?_, ?_, ?_, ?_, ?_⟩
  · intro h; unfold levelCheck; rw [if_pos h]
  · intro h
    unfold levelCheck LevelTrace LevelDiscard at *
    split_ifs <;> omega
  · intro h1 h2
    unfold levelCheck LevelTrace LevelDiscard at *
    split_ifs <;> omega
  · intro h
    unfold SetThreshold
    split_ifs with h2 <;> simp_all
  · intro h
    unfold SetThreshold
    split_ifs with h2 <;> simp_all
  · intro h
    unfold SetThreshold
    split_ifs with h2 <;> simp_all
  · intro h
    unfold SetThreshold
    split_ifs with h2 <;> simp_all
  · unfold Flags
    rw [hclamp]
  · intro h1 h2
    have hne : ∀ c : Int, 0 ≤ c → c ≤ 7 → ¬(level = LevelAll ∨ c = level) := by
      intro c hc1 hc2 hor
      rcases hor with h | h
      · exact h2 h
      · unfold LevelTrace LevelDiscard at h1; omega
    show SetFlagsList level flags tgt [TRACE, DEBUG, VERBOSE, INFO, NOTE, ISSUE, ERROR, FATAL] =
      [TRACE, DEBUG, VERBOSE, INFO, NOTE, ISSUE, ERROR, FATAL]
    rw [setFlagsList_skip level flags tgt TRACE _ (hne TRACE.level (by decide) (by decide)),
      setFlagsList_skip level flags tgt DEBUG _ (hne DEBUG.level (by decide) (by decide)),
      setFlagsList_skip level flags tgt VERBOSE _ (hne VERBOSE.level (by decide) (by decide)),
      setFlagsList_skip level flags tgt INFO _ (hne INFO.level (by decide) (by decide)),
      setFlagsList_skip level flags tgt NOTE _ (hne NOTE.level (by decide) (by decide)),
      setFlagsList_skip level flags tgt ISSUE _ (hne ISSUE.level (by decide) (by decide)),
      setFlagsList_skip level flags tgt ERROR _ (hne ERROR.level (by decide) (by decide)),
      setFlagsList_skip level flags tgt FATAL _ (hne FATAL.level (by decide) (by decide))]
    rfl

/-- Witness for C8 (amended) at concrete inputs: level 100 clamps to
LevelDiscard for SetThreshold on both targets, and SetFlags at level 100 is a
no-op on the default channels. -/
theorem level_clamping_amended_witness :
    (SetThreshold 100 ForBoth defaultState).screenThreshold = LevelDiscard ∧
    (SetThreshold 100 ForBoth defaultState).logThreshold = LevelDiscard ∧
    SetFlagsList 100 0 ForBoth defaultOutputters = defaultOutputters := by
  have h := level_clamping_amended 100 0 ForBoth defaultState defaultOutputters
  refine ⟨?_, ?_, h.2.2.2.2.2.2.2.2 (by norm_num [LevelTrace, LevelDiscard])
    (by norm_num [LevelAll])⟩
  · rw [h.2.2.2.1 (by decide), h.2.1 (by norm_num [LevelDiscard])]
  · rw [h.2.2.2.2.2.1 (by decide), h.2.1 (by norm_num [LevelDiscard])]

/-! ## Claim C7: error-code splicing -/

/-- Claim C7: when a positive error code different from the no-code sentinel
is supplied and the prefix splits on the colon into exactly two parts (one
colon), InsertPrefix behaves as if called with the code spliced in before
that colon and no code; a code equal to the no-code sentinel behaves as no
code at all; concretely, Error-prefix with code 42 yields the
Error-number-42 prefix and the sentinel leaves the prefix unchanged. -/
theorem insertPrefix_error_code_splicing (s pfx p0 p1 : List Char) (ctrl : Nat)
    (code dec : Int) :
    (code > 0 → code ≠ dec → splitOnChar ':' pfx = [p0, p1] →
      InsertPrefix s pfx ctrl code dec =
        InsertPrefix s (p0 ++ " #".data ++ (toString code).data ++ [':'] ++ p1)
          ctrl 0 dec) ∧
    (InsertPrefix s pfx ctrl dec dec = InsertPrefix s pfx ctrl 0 dec) ∧
    (InsertPrefix "boom".data "Error: ".data 0 42 100 = "Error #42: boom".data) ∧
    (InsertPrefix "boom".data "Error: ".data 0 100 100 = "Error: boom".data) := by
  refine ⟨?_, ?_, by decide, by decide⟩
  · intro h1 h2 hsplit
    have hpfx : pfx ≠ [] := by
      intro he
      rw [he] at hsplit
      have := congrArg List.length hsplit
      simp [splitOnChar] at this
    have hp0 : p0 ++ " #".data ++ (toString code).data ++ [':'] ++ p1 ≠ [] := by
      intro he
      have : ':' ∈ (p0 ++ " #".data ++ (toString code).data ++ [':'] ++ p1) := by
        simp
      rw [he] at this
      exact absurd this (by simp)
    unfold InsertPrefix
    rw [if_neg hpfx, if_neg hp0]
    have hc : (code > 0 ∧ code ≠ dec) := ⟨h1, h2⟩
    rw [if_pos hc, hsplit,
      if_neg (by omega : ¬((0 : Int) > 0 ∧ (0 : Int) ≠ dec))]
    simp [List.append_assoc]
  · unfold InsertPrefix
    rw [if_neg (by omega : ¬(dec > 0 ∧ dec ≠ dec)),
      if_neg (by omega : ¬((0 : Int) > 0 ∧ (0 : Int) ≠ dec))]

/-- Witness for C7 at concrete inputs: the Error prefix splits on its one
colon and code 7 is spliced before it. -/
theorem insertPrefix_error_code_splicing_witness :
    splitOnChar ':' "Error: ".data = ["Error".data, " ".data] ∧
    InsertPrefix "x".data "Error: ".data 0 7 100 =
      InsertPrefix "x".data ("Error".data ++ " #".data ++ (toString (7 : Int)).data ++
        [':'] ++ " ".data) 0 0 100 := by
  exact ⟨by decide,
    (insertPrefix_error_code_splicing "x".data "Error: ".data "Error".data " ".data 0
      7 100).1 (by decide) (by decide) (by decide)⟩

/-! ## Claim C2: threshold gating -/

/-- Reflexivity of screen-side agreement. -/
theorem agreesOnScreen_rfl (st : OutState) : agreesOnScreen st st :=
  ⟨rfl, rfl, rfl, rfl, rfl, rfl, rfl, rfl, rfl⟩

/-- Reflexivity of logfile-side agreement. -/
theorem agreesOnLogfile_rfl (st : OutState) : agreesOnLogfile st st :=
  ⟨rfl, rfl, rfl, rfl, rfl, rfl, rfl, rfl, rfl⟩

set_option maxHeartbeats 1000000 in
/-- A logfile-target write touches neither the screen sink nor any field the
screen path reads. -/
theorem writeOutput_logfile_agrees (o : LvlCfg) (env : Env) (s : List Char)
    (d : Bool) (ev : Int) (stk : List Char) (st : OutState) :
    agreesOnScreen (writeOutput o env s ForLogfile d ev stk st).st st := by
  have hb : ((ForLogfile &&& ForScreen == 1) : Bool) = false := by decide
  unfold writeOutput stackStep
  simp only [hb, Bool.false_eq_true, if_false, getSink, putSink, putNl, sinkWrite]
  repeat' split
  all_goals exact ⟨rfl, rfl, rfl, rfl, rfl, rfl, rfl, rfl, rfl⟩

set_option maxHeartbeats 1000000 in
/-- A screen-target write touches neither the logfile sink nor any field the
logfile path reads. -/
theorem writeOutput_screen_agrees (o : LvlCfg) (env : Env) (s : List Char)
    (d : Bool) (ev : Int) (stk : List Char) (st : OutState) :
    agreesOnLogfile (writeOutput o env s ForScreen d ev stk st).st st := by
  have hb : ((ForScreen &&& ForScreen == 1) : Bool) = true := by decide
  unfold writeOutput stackStep
  simp only [hb, if_true, getSink, putSink, putNl, sinkWrite]
  repeat' split
  all_goals exact ⟨rfl, rfl, rfl, rfl, rfl, rfl, rfl, rfl, rfl⟩

/-- A target block whose gate is closed changes nothing and reports nothing. -/
theorem targetBlock_not_emit (o : LvlCfg) (env : Env) (ci : CallerInfo) (str : List Char)
    (tgt noMask : Nat) (skipNativePfx : Bool) (tgtStack : List Char) (dying : Bool)
    (exitVal : Int) (detErr : Option DetErr) (threshold : Int) (st : OutState)
    (h : shouldEmit o.level threshold = false) :
    targetBlock o env ci str tgt noMask skipNativePfx tgtStack dying exitVal detErr
      threshold st = (st, 0, none, false) := by
  unfold targetBlock
  simp [h]

/-- The logfile block leaves the screen-side fields of the state alone. -/
theorem targetBlock_logfile_agrees (o : LvlCfg) (env : Env) (ci : CallerInfo)
    (str : List Char) (noMask : Nat) (skipNativePfx : Bool) (tgtStack : List Char)
    (dying : Bool) (exitVal : Int) (detErr : Option DetErr) (threshold : Int)
    (st : OutState) :
    agreesOnScreen (targetBlock o env ci str ForLogfile noMask skipNativePfx tgtStack
      dying exitVal detErr threshold st).1 st := by
  unfold targetBlock
  dsimp only
  repeat' split
  all_goals first
    | exact agreesOnScreen_rfl st
    | exact writeOutput_logfile_agrees o env _ dying exitVal _ st

/-- The screen block leaves the logfile-side fields of the state alone. -/
theorem targetBlock_screen_agrees (o : LvlCfg) (env : Env) (ci : CallerInfo)
    (str : List Char) (noMask : Nat) (skipNativePfx : Bool) (tgtStack : List Char)
    (dying : Bool) (exitVal : Int) (detErr : Option DetErr) (threshold : Int)
    (st : OutState) :
    agreesOnLogfile (targetBlock o env ci str ForScreen noMask skipNativePfx tgtStack
      dying exitVal detErr threshold st).1 st := by
  unfold targetBlock
  dsimp only
  repeat' split
  all_goals first
    | exact agreesOnLogfile_rfl st
    | exact writeOutput_screen_agrees o env _ dying exitVal _ st

/-- A whole emission whose screen gate is closed leaves the screen-side fields
of the state alone. -/
theorem stringOutput_screen_skip (o : LvlCfg) (env : Env) (ci : CallerInfo)
    (msg : List Char) (dying : Bool) (exitVal : Int) (detErr : Option DetErr)
    (st : OutState) (h : shouldEmit o.level st.screenThreshold = false) :
    agreesOnScreen (stringOutput o env ci msg dying exitVal detErr st).st st := by
  unfold stringOutput
  dsimp only
  rw [targetBlock_not_emit o env ci _ ForScreen _ _ _ dying exitVal detErr
    st.screenThreshold st h]
  dsimp only
  repeat' split
  all_goals first
    | exact agreesOnScreen_rfl st
    | apply targetBlock_logfile_agrees

set_option maxHeartbeats 2000000 in
/-- A whole emission whose logfile gate is closed leaves the logfile-side
fields of the state alone. -/
theorem stringOutput_logfile_skip (o : LvlCfg) (env : Env) (ci : CallerInfo)
    (msg : List Char) (dying : Bool) (exitVal : Int) (detErr : Option DetErr)
    (st : OutState) (h : shouldEmit o.level st.logThreshold = false) :
    agreesOnLogfile (stringOutput o env ci msg dying exitVal detErr st).st st := by
  have hThr : ∀ (str : List Char) (noMask : Nat) (skip : Bool) (stack : List Char),
      (targetBlock o env ci str ForScreen noMask skip stack dying exitVal detErr
        st.screenThreshold st).1.logThreshold = st.logThreshold :=
    fun str noMask skip stack =>
      (targetBlock_screen_agrees o env ci str noMask skip stack dying exitVal detErr
        st.screenThreshold st).2.2.2.1
  have hNE : ∀ (str : List Char) (noMask : Nat) (skip : Bool) (stack : List Char)
      (str2 : List Char) (noMask2 : Nat) (skip2 : Bool) (stack2 : List Char),
      targetBlock o env ci str2 ForLogfile noMask2 skip2 stack2 dying exitVal detErr
        (targetBlock o env ci str ForScreen noMask skip stack dying exitVal detErr
          st.screenThreshold st).1.logThreshold
        (targetBlock o env ci str ForScreen noMask skip stack dying exitVal detErr
          st.screenThreshold st).1 =
      ((targetBlock o env ci str ForScreen noMask skip stack dying exitVal detErr
          st.screenThreshold st).1, 0, none, false) := by
    intro str noMask skip stack str2 noMask2 skip2 stack2
    apply targetBlock_not_emit
    rw [hThr str noMask skip stack]
    exact h
  unfold stringOutput
  dsimp only
  simp only [hNE]
  repeat' split
  all_goals apply targetBlock_screen_agrees

/-- An emission call whose screen gate is closed leaves the screen sink
contents unchanged (the error path touches only the fallback stderr
stream). -/
theorem outputCall_screen_skip (o : LvlCfg) (env : Env) (ci : CallerInfo)
    (msg : List Char) (terminal : Bool) (exitVal : Int) (detErr : Option DetErr)
    (st : OutState) (h : shouldEmit o.level st.screenThreshold = false) :
    (outputCall o env ci msg terminal exitVal detErr st).st.screen.contents =
      st.screen.contents := by
  have hA := stringOutput_screen_skip o env ci msg terminal exitVal detErr st h
  unfold outputCall
  dsimp only
  split
  · exact congrArg Sink.contents hA.1
  · exact congrArg Sink.contents hA.1

/-- An emission call whose logfile gate is closed leaves the logfile sink
contents unchanged. -/
theorem outputCall_logfile_skip (o : LvlCfg) (env : Env) (ci : CallerInfo)
    (msg : List Char) (terminal : Bool) (exitVal : Int) (detErr : Option DetErr)
    (st : OutState) (h : shouldEmit o.level st.logThreshold = false) :
    (outputCall o env ci msg terminal exitVal detErr st).st.logfile.contents =
      st.logfile.contents := by
  have hA := stringOutput_logfile_skip o env ci msg terminal exitVal detErr st h
  unfold outputCall
  dsimp only
  split
  · exact congrArg Sink.contents hA.1
  · exact congrArg Sink.contents hA.1

/-- Claim C2: shouldEmit is false exactly when the level is below the target's
threshold or equals the Discard sentinel, and an emission writes on a
target's sink only if shouldEmit holds for that target (a closed gate leaves
that sink's contents unchanged). -/
theorem shouldEmit_gate (o : LvlCfg) (env : Env) (ci : CallerInfo) (msg : List Char)
    (dying : Bool) (exitVal : Int) (detErr : Option DetErr) (st : OutState) (L T : Int) :
    (shouldEmit L T = false ↔ L < T ∨ L = LevelDiscard) ∧
    (shouldEmit o.level st.screenThreshold = false →
      (outputCall o env ci msg dying exitVal detErr st).st.screen.contents =
        st.screen.contents) ∧
    (shouldEmit o.level st.logThreshold = false →
      (outputCall o env ci msg dying exitVal detErr st).st.logfile.contents =
        st.logfile.contents) := by
  refine ⟨?_, outputCall_screen_skip o env ci msg dying exitVal detErr st,
    outputCall_logfile_skip o env ci msg dying exitVal detErr st⟩
  simp only [shouldEmit, LevelDiscard, Bool.and_eq_false_imp, decide_eq_false_iff_not,
    not_le, ne_eq, Bool.and_eq_false_iff, decide_eq_true_eq, not_not]
  omega

/-- Witness for C2 at concrete inputs: a Note emission against an Issue screen
threshold is gated off and leaves the screen sink empty. -/
theorem shouldEmit_gate_witness :
    shouldEmit LevelNote LevelIssue = false ∧
    (outputCall NOTE defaultEnv defaultCI "hi".data false 0 none
      { defaultState with screenThreshold := LevelIssue }).st.screen.contents = [] := by
  refine ⟨by decide, ?_⟩
  exact (shouldEmit_gate NOTE defaultEnv defaultCI "hi".data false 0 none
    { defaultState with screenThreshold := LevelIssue } 0 0).2.1 (by decide)

/-! ## Claim C1: termination protocol -/

/-- Claim C1 fails on the code: IssueExit with intended exit value 3, default
errorExitVal -1 and a registered deferred hook invokes the hook with -1 and
exits with -1 — the dying tail of stringOutput reads the package errorExitVal
and ignores the exitVal argument of the terminal emission, contradicting the
IssueExit documentation (os.Exit is called with the given exitVal).  The
message itself is routed correctly. -/
theorem issueExit_tail_ignores_exitVal :
    (IssueExit defaultEnv defaultCI 3 "boom\n".data
      { defaultState with hookRegistered := true }).hookCalls = [-1] ∧
    (IssueExit defaultEnv defaultCI 3 "boom\n".data
      { defaultState with hookRegistered := true }).exitCode = some (-1) ∧
    (IssueExit defaultEnv defaultCI 3 "boom\n".data
      { defaultState with hookRegistered := true }).st.screen.contents =
      "Issue: boom\n".data ∧
    (IssueExit defaultEnv defaultCI 3 "boom\n".data
      { defaultState with hookRegistered := true }).hookCalls ≠ [3] ∧
    (IssueExit defaultEnv defaultCI 3 "boom\n".data
      { defaultState with hookRegistered := true }).exitCode ≠ some 3 := by
  refine ⟨by decide, by decide, by decide, by decide, by decide⟩

/-! ## Claim C9: empty emission reaches an out-of-range index -/

/-- Claim C9 fails on the code: a Print call with no arguments at the default
configuration composes the empty string, the screen gate is open, and the
empty string reaches writeOutput, whose last-character inspection indexes out
of range (a Go runtime panic), recorded by the panicked flag. -/
theorem print_empty_message_panics :
    (PrintCall defaultEnv defaultCI [] defaultState).panicked = true ∧
    (doPrefixing INFO defaultEnv defaultCI [] ForScreen SmartInsert none false
      defaultState).1 = [] ∧
    shouldEmit INFO.level defaultState.screenThreshold = true := by
  refine ⟨by decide, by decide, by decide⟩

/-! ## Claim C4: write failures are reported and termination proceeds -/

set_option maxRecDepth 100000 in
set_option maxHeartbeats 16000000 in
/-- Claim C4: when the screen sink write fails during a terminal Error-level
emission, the emission returns the error value (never silently dropped), the
diagnostic is printed to the fallback error stream, and the engine still runs
the registered deferred hook and terminates with the configured error exit
value — unless the test-mode no-exit override is active. -/
theorem write_failure_reported (m : List Char) (v e : Int) (hook noExitActive : Bool) :
    let st0 : OutState :=
      { defaultState with screen := ⟨false, []⟩, errorExitVal := e, hookRegistered := hook }
    let env0 : Env := { defaultEnv with noExit := if noExitActive then "1".data else [] }
    let r := outputCall ERROR env0 defaultCI m true v none st0
    r.err.isSome = true ∧
    r.st.stderrStream = r.err.getD [] ∧
    r.hookCalls = (if hook then [e] else []) ∧
    r.exitCode = (if noExitActive then none else some e) ∧
    r.panicked = false := by
  cases hook <;> cases noExitActive <;>
    with_unfolding_all exact ⟨rfl, rfl, rfl, rfl, rfl⟩

/-! ## Claim C5: newline-continuation transitions -/

set_option maxHeartbeats 1000000 in
/-- After a successful screen write the screen continuation flag records
whether the written string ended in a newline, with the dying-emission
corrective newline forcing it true, and the contents grow by exactly the
string, the optional corrective newline and the optional stack trace. -/
theorem writeOutput_screen_flag (o : LvlCfg) (env : Env) (s : List Char)
    (dying : Bool) (exitVal : Int) (stk : List Char) (st : OutState)
    (hok : st.screen.ok = true) (hne : s ≠ []) :
    (writeOutput o env s ForScreen dying exitVal stk st).err = none ∧
    (writeOutput o env s ForScreen dying exitVal stk st).st.screenNewline =
      ((s.getLast? == some '\n') || dying) ∧
    (writeOutput o env s ForScreen dying exitVal stk st).st.screen.contents =
      st.screen.contents ++ s ++
        (if s.getLast? == some '\n' then [] else if dying then ['\n'] else []) ++
        (if stackTraceWanted (resolveStackCfg env.stackTraceCfg st.stackTraceConfig)
            o.level dying exitVal ForScreen then stk else []) := by
  have hb : ((ForScreen &&& ForScreen == 1) : Bool) = true := by decide
  by_cases hnl : (s.getLast? == some '\n' : Bool)
  all_goals by_cases hd : dying
  all_goals
    unfold writeOutput stackStep
    simp only [hb, if_true, getSink, putSink, putNl, sinkWrite, hok, hnl, hd, hne,
      Bool.true_and, Bool.false_and, Bool.true_or, Bool.false_or, Bool.or_true,
      Bool.or_false, if_false, Bool.not_true, Bool.not_false, and_true, and_false,
      not_true_eq_false, not_false_eq_true, true_and, false_and, if_neg, ite_false,
      ite_true, List.append_assoc, List.append_nil]
  all_goals split_ifs <;> simp_all [List.append_assoc]

set_option maxHeartbeats 1000000 in
/-- The logfile counterpart of the screen continuation-flag transition. -/
theorem writeOutput_logfile_flag (o : LvlCfg) (env : Env) (s : List Char)
    (dying : Bool) (exitVal : Int) (stk : List Char) (st : OutState)
    (hok : st.logfile.ok = true) (hne : s ≠ []) :
    (writeOutput o env s ForLogfile dying exitVal stk st).err = none ∧
    (writeOutput o env s ForLogfile dying exitVal stk st).st.logfileNewline =
      ((s.getLast? == some '\n') || dying) ∧
    (writeOutput o env s ForLogfile dying exitVal stk st).st.logfile.contents =
      st.logfile.contents ++ s ++
        (if s.getLast? == some '\n' then [] else if dying then ['\n'] else []) ++
        (if stackTraceWanted (resolveStackCfg env.stackTraceCfg st.stackTraceConfig)
            o.level dying exitVal ForLogfile then stk else []) := by
  have hb : ((ForLogfile &&& ForScreen == 1) : Bool) = false := by decide
  by_cases hnl : (s.getLast? == some '\n' : Bool)
  all_goals by_cases hd : dying
  all_goals
    unfold writeOutput stackStep
    simp only [hb, Bool.false_eq_true, if_false, getSink, putSink, putNl, sinkWrite,
      hok, hnl, hd, hne, Bool.true_and, Bool.false_and, Bool.true_or, Bool.false_or,
      Bool.or_true, Bool.or_false, Bool.not_true, Bool.not_false, and_true, and_false,
      not_true_eq_false, not_false_eq_true, true_and, false_and, ite_false, ite_true,
      List.append_assoc, List.append_nil]
  all_goals split_ifs <;> simp_all [List.append_assoc]

/-- On a flags-free channel with no env overrides, a SmartInsert prefixing
pass ors SkipFirstLine into its control exactly when the screen continuation
flag was false going in. -/
theorem doPrefixing_smart_skip (o : LvlCfg) (env : Env) (ci : CallerInfo)
    (s : List Char) (detErr : Option DetErr) (st : OutState)
    (hf : o.screenFlags = 0) (he : env.screenFlags = []) (hd : env.debugScope = [])
    (hsm : env.smartFlagsPfx ≠ "off".data) :
    (doPrefixing o env ci s ForScreen SmartInsert detErr false st).1 =
      InsertPrefix s o.pfx
        (if st.screenNewline then SmartInsert else SmartInsert ||| SkipFirstLine)
        (match detErr with | some d => d.code | none => st.defaultErrCode)
        st.defaultErrCode := by
  unfold doPrefixing insertFlagMetadata getFlagString
  by_cases hnl : st.screenNewline
  all_goals
    simp only [hf, he, hd, hsm, hnl, ForScreen, ForLogfile, SmartInsert, SkipFirstLine,
      Lpid, Llevel, Ldate, Ltime, Lmicroseconds, Lshortfile, Llongfile, Lshortfunc,
      Llongfunc, Nat.zero_and, ne_eq, not_true_eq_false, not_false_eq_true,
      Bool.not_true, Bool.not_false, if_true, if_false, ite_false, ite_true]
    norm_num

/-- The logfile counterpart of the SkipFirstLine consumption clause: a
SmartInsert prefixing pass on the logfile target ors SkipFirstLine into its
control exactly when the logfile continuation flag was false going in. -/
theorem doPrefixing_smart_skip_logfile (o : LvlCfg) (env : Env) (ci : CallerInfo)
    (s : List Char) (detErr : Option DetErr) (st : OutState)
    (hf : o.logFlags = 0) (he : env.logfileFlags = []) (hd : env.debugScope = [])
    (hsm : env.smartFlagsPfx ≠ "off".data) :
    (doPrefixing o env ci s ForLogfile SmartInsert detErr false st).1 =
      InsertPrefix s o.pfx
        (if st.logfileNewline then SmartInsert else SmartInsert ||| SkipFirstLine)
        (match detErr with | some d => d.code | none => st.defaultErrCode)
        st.defaultErrCode := by
  unfold doPrefixing insertFlagMetadata getFlagString
  by_cases hnl : st.logfileNewline
  all_goals
    simp only [hf, he, hd, hsm, hnl, ForScreen, ForLogfile, SmartInsert, SkipFirstLine,
      Lpid, Llevel, Ldate, Ltime, Lmicroseconds, Lshortfile, Llongfile, Lshortfunc,
      Llongfunc, Nat.zero_and, ne_eq, not_true_eq_false, not_false_eq_true,
      Bool.not_true, Bool.not_false, if_true, if_false, ite_false, ite_true]
    norm_num

/-- Claim C5: after every successful write to a target the target's
newline-continuation flag becomes true exactly when the final character
written is the newline byte — a dying emission lacking one additionally
writes a single corrective newline and leaves the flag true — and the next
SmartInsert-mode prefixing on that target (screen or logfile) ors
SkipFirstLine into its control exactly when the flag was false when read. -/
theorem newline_flag_transitions (o : LvlCfg) (env : Env) (ci : CallerInfo)
    (s : List Char) (dying : Bool) (exitVal : Int) (stk : List Char) (st : OutState)
    (detErr : Option DetErr) :
    (st.screen.ok = true → s ≠ [] →
      (writeOutput o env s ForScreen dying exitVal stk st).err = none ∧
      (writeOutput o env s ForScreen dying exitVal stk st).st.screenNewline =
        ((s.getLast? == some '\n') || dying) ∧
      (writeOutput o env s ForScreen dying exitVal stk st).st.screen.contents =
        st.screen.contents ++ s ++
          (if s.getLast? == some '\n' then [] else if dying then ['\n'] else []) ++
          (if stackTraceWanted (resolveStackCfg env.stackTraceCfg st.stackTraceConfig)
              o.level dying exitVal ForScreen then stk else [])) ∧
    (st.logfile.ok = true → s ≠ [] →
      (writeOutput o env s ForLogfile dying exitVal stk st).err = none ∧
      (writeOutput o env s ForLogfile dying exitVal stk st).st.logfileNewline =
        ((s.getLast? == some '\n') || dying) ∧
      (writeOutput o env s ForLogfile dying exitVal stk st).st.logfile.contents =
        st.logfile.contents ++ s ++
          (if s.getLast? == some '\n' then [] else if dying then ['\n'] else []) ++
          (if stackTraceWanted (resolveStackCfg env.stackTraceCfg st.stackTraceConfig)
              o.level dying exitVal ForLogfile then stk else [])) ∧
    (o.screenFlags = 0 → env.screenFlags = [] → env.debugScope = [] →
      env.smartFlagsPfx ≠ "off".data →
      (doPrefixing o env ci s ForScreen SmartInsert detErr false st).1 =
        InsertPrefix s o.pfx
          (if st.screenNewline then SmartInsert else SmartInsert ||| SkipFirstLine)
          (match detErr with | some d => d.code | none => st.defaultErrCode)
          st.defaultErrCode) ∧
    (o.logFlags = 0 → env.logfileFlags = [] → env.debugScope = [] →
      env.smartFlagsPfx ≠ "off".data →
      (doPrefixing o env ci s ForLogfile SmartInsert detErr false st).1 =
        InsertPrefix s o.pfx
          (if st.logfileNewline then SmartInsert else SmartInsert ||| SkipFirstLine)
          (match detErr with | some d => d.code | none => st.defaultErrCode)
          st.defaultErrCode) :=
  ⟨fun h1 h2 => writeOutput_screen_flag o env s dying exitVal stk st h1 h2,
   fun h1 h2 => writeOutput_logfile_flag o env s dying exitVal stk st h1 h2,
   fun h1 h2 h3 h4 => doPrefixing_smart_skip o env ci s detErr st h1 h2 h3 h4,
   fun h1 h2 h3 h4 => doPrefixing_smart_skip_logfile o env ci s detErr st h1 h2 h3 h4⟩

/-- Witness for C5 at concrete inputs: a Note write without trailing newline
clears the screen continuation flag, the same write on the logfile target
clears the logfile continuation flag, and a subsequent SmartInsert prefixing
against a cleared flag ors in SkipFirstLine on either target. -/
theorem newline_flag_transitions_witness :
    (writeOutput NOTE defaultEnv "hi".data ForScreen false 0 [] defaultState).st.screenNewline
      = false ∧
    (writeOutput NOTE defaultEnv "hi".data ForLogfile false 0 [] defaultState).st.logfileNewline
      = false ∧
    (doPrefixing NOTE defaultEnv defaultCI "x".data ForScreen SmartInsert none false
      { defaultState with screenNewline := false }).1 =
      InsertPrefix "x".data NOTE.pfx (SmartInsert ||| SkipFirstLine) 100 100 ∧
    (doPrefixing { NOTE with logFlags := 0 } defaultEnv defaultCI "x".data ForLogfile
      SmartInsert none false { defaultState with logfileNewline := false }).1 =
      InsertPrefix "x".data NOTE.pfx (SmartInsert ||| SkipFirstLine) 100 100 := by
  refine ⟨?_, ?_, ?_, ?_⟩
  · have h := (newline_flag_transitions NOTE defaultEnv defaultCI "hi".data false 0 []
      defaultState none).1 (by decide) (by decide)
    rw [h.2.1]
    decide
  · have h := (newline_flag_transitions NOTE defaultEnv defaultCI "hi".data false 0 []
      defaultState none).2.1 (by decide) (by decide)
    rw [h.2.1]
    decide
  · have h := (newline_flag_transitions NOTE defaultEnv defaultCI "x".data false 0 []
      { defaultState with screenNewline := false } none).2.2.1 (by decide) (by decide)
      (by decide) (by decide)
    rw [h]
    decide
  · have h := (newline_flag_transitions { NOTE with logFlags := 0 } defaultEnv defaultCI
      "x".data false 0 [] { defaultState with logfileNewline := false } none).2.2.2
      (by decide) (by decide) (by decide) (by decide)
    rw [h]
    decide

/-! ## Claim C6: prefix-insertion characterization -/

/-- Splitting on a character never yields an empty list of pieces. -/
theorem splitOnChar_ne_nil (c : Char) (s : List Char) : splitOnChar c s ≠ [] := by
  induction s with
  | nil => simp [splitOnChar]
  | cons a t ih =>
    simp only [splitOnChar]
    split_ifs
    · simp
    · cases h : splitOnChar c t with
      | nil => simp
      | cons x xs => simp

/-- No piece produced by splitting on a character contains that character. -/
theorem splitOnChar_not_mem (c : Char) (s : List Char) :
    ∀ x ∈ splitOnChar c s, c ∉ x := by
  induction s with
  | nil =>
    intro x hx
    simp [splitOnChar] at hx
    simp [hx]
  | cons a t ih =>
    intro x hx
    simp only [splitOnChar] at hx
    split_ifs at hx with hac
    · rcases List.mem_cons.mp hx with h | h
      · simp [h]
      · exact ih x h
    · cases h : splitOnChar c t with
      | nil => exact absurd h (splitOnChar_ne_nil c t)
      | cons y ys =>
        rw [h] at hx
        rcases List.mem_cons.mp hx with h2 | h2
        · subst h2
          intro hmem
          rcases List.mem_cons.mp hmem with h3 | h3
          · exact hac h3.symm
          · exact ih y (h ▸ List.mem_cons_self y ys) h3
        · exact ih x (h ▸ List.mem_cons_of_mem y h2)

/-- Splitting a string free of the separator yields the string itself as the
only piece. -/
theorem splitOnChar_single (c : Char) (s : List Char) (h : c ∉ s) :
    splitOnChar c s = [s] := by
  induction s with
  | nil => rfl
  | cons a t ih =>
    simp only [splitOnChar]
    have hac : ¬(a = c) := fun he => h (he ▸ List.mem_cons_self a t)
    rw [if_neg hac, ih (fun hm => h (List.mem_cons_of_mem a hm))]

/-- Splitting a separator-free piece glued by a separator onto a rest peels
off that piece. -/
theorem splitOnChar_append_cons (c : Char) (p r : List Char) (h : c ∉ p) :
    splitOnChar c (p ++ c :: r) = p :: splitOnChar c r := by
  induction p with
  | nil => simp [splitOnChar]
  | cons a q ih =>
    have hac : ¬(a = c) := fun he => h (he ▸ List.mem_cons_self a q)
    have hq : c ∉ q := fun hm => h (List.mem_cons_of_mem a hm)
    simp only [List.cons_append, splitOnChar, if_neg hac, List.append_eq]
    rw [ih hq]

/-- Splitting inverts joining for a nonempty list of separator-free pieces. -/
theorem splitOnChar_join (c : Char) (pieces : List (List Char)) (hne : pieces ≠ [])
    (hmem : ∀ x ∈ pieces, c ∉ x) :
    splitOnChar c (joinWithChar c pieces) = pieces := by
  induction pieces with
  | nil => exact absurd rfl hne
  | cons p rest ih =>
    cases rest with
    | nil =>
      simp only [joinWithChar]
      exact splitOnChar_single c p (hmem p (List.mem_cons_self p []))
    | cons q rest2 =>
      have hjoin : joinWithChar c (p :: q :: rest2) = p ++ c :: joinWithChar c (q :: rest2) :=
        rfl
      rw [hjoin, splitOnChar_append_cons c p _ (hmem p (List.mem_cons_self p _)),
        ih (by simp) (fun x hx => hmem x (List.mem_cons_of_mem p hx))]

/-- Element i of the prefix-insertion loop output is the loop body applied to
element i of the input, at running index k plus i. -/
theorem prefixLinesAux_getElem (p sp : List Char) (c n : Nat) :
    ∀ (ls : List (List Char)) (k i : Nat),
      (prefixLinesAux p sp c n k ls)[i]? = ls[i]?.map (fun line =>
        if (k + i = n - 1 ∧ line = []) ∨ (k + i = 0 ∧ c &&& SkipFirstLine ≠ 0) then line
        else if c &&& BlankInsert ≠ 0 then sp ++ line
        else p ++ line) := by
  intro ls
  induction ls with
  | nil => intro k i; simp [prefixLinesAux]
  | cons a t ih =>
    intro k i
    cases i with
    | zero => simp [prefixLinesAux]
    | succ j =>
      simp only [prefixLinesAux, List.getElem?_cons_succ]
      rw [ih (k + 1) j]
      have he : k + 1 + j = k + (j + 1) := by omega
      rw [he]

/-- The prefix-insertion loop preserves the number of lines. -/
theorem prefixLinesAux_length (p sp : List Char) (c n : Nat) :
    ∀ (ls : List (List Char)) (k : Nat),
      (prefixLinesAux p sp c n k ls).length = ls.length := by
  intro ls
  induction ls with
  | nil => intro k; rfl
  | cons a t ih => intro k; simp [prefixLinesAux, ih]

/-- Every element of the prefix-insertion loop output is an input line, a
space-prefixed input line, or a prefix-prefixed input line. -/
theorem prefixLinesAux_mem (p sp : List Char) (c n : Nat) :
    ∀ (ls : List (List Char)) (k : Nat) (x : List Char),
      x ∈ prefixLinesAux p sp c n k ls →
      ∃ line ∈ ls, x = line ∨ x = sp ++ line ∨ x = p ++ line := by
  intro ls
  induction ls with
  | nil => intro k x hx; simp [prefixLinesAux] at hx
  | cons a t ih =>
    intro k x hx
    simp only [prefixLinesAux] at hx
    rcases List.mem_cons.mp hx with h | h
    · refine ⟨a, List.mem_cons_self a t, ?_⟩
      split_ifs at h
      · left; exact h
      · right; left; exact h
      · right; right; exact h
    · obtain ⟨line, hmem, hcase⟩ := ih (k + 1) x h
      exact ⟨line, List.mem_cons_of_mem a hmem, hcase⟩

/-- Counterexample to claim C6 as stated: the claim's single-line clause says
a string with no embedded newline under a non-empty prefix and default mode
comes out as the prefix followed by the string, but the empty string is such
a string and comes out unchanged (its only split element is the final empty
element, which is never prefixed). -/
theorem insertPrefix_empty_single_line_counterexample :
    InsertPrefix [] "X".data 0 0 0 ≠ "X".data ++ ([] : List Char) := by decide

set_option maxHeartbeats 1000000 in
/-- Claim C6 (amended): with an empty prefix InsertPrefix returns the string
unchanged for every control and code; with a non-empty newline-free effective
prefix the output splits on newline into exactly the input's lines where
line i is left alone when it is the final empty element or when it is line 0
under SkipFirstLine of the effective control (AlwaysInsert zeroes all other
mode bits, so line 0 is then prefixed even if SkipFirstLine was set),
receives spaces of the effective prefix's length under BlankInsert, and
receives the effective (code-spliced) prefix otherwise; and a non-empty
string with no embedded newline under default mode comes out as the prefix
followed by the string. -/
theorem insertPrefix_characterization (s pfx : List Char) (ctrl : Nat) (errCode dec : Int) :
    (InsertPrefix s [] ctrl errCode dec = s) ∧
    (pfx ≠ [] → '\n' ∉ spliceErrCode pfx errCode dec →
      (splitOnChar '\n' (InsertPrefix s pfx ctrl errCode dec)).length =
        (splitOnChar '\n' s).length ∧
      (∀ i line, (splitOnChar '\n' s)[i]? = some line →
        (splitOnChar '\n' (InsertPrefix s pfx ctrl errCode dec))[i]? = some (
          if (i = (splitOnChar '\n' s).length - 1 ∧ line = []) ∨
              (i = 0 ∧ (if ctrl &&& AlwaysInsert ≠ 0 then 0 else ctrl) &&& SkipFirstLine ≠ 0)
            then line
          else if (if ctrl &&& AlwaysInsert ≠ 0 then 0 else ctrl) &&& BlankInsert ≠ 0 then
            List.replicate (spliceErrCode pfx errCode dec).length ' ' ++ line
          else spliceErrCode pfx errCode dec ++ line))) ∧
    (pfx ≠ [] → s ≠ [] → '\n' ∉ s → InsertPrefix s pfx 0 0 dec = pfx ++ s) := by
  refine ⟨by simp [InsertPrefix], ?_, ?_⟩
  · intro hpfx hnlp
    have hEq : InsertPrefix s pfx ctrl errCode dec =
        joinWithChar '\n' (prefixLinesAux (spliceErrCode pfx errCode dec)
          (List.replicate (spliceErrCode pfx errCode dec).length ' ')
          (if ctrl &&& AlwaysInsert ≠ 0 then 0 else ctrl)
          (splitOnChar '\n' s).length 0 (splitOnChar '\n' s)) := by
      unfold InsertPrefix spliceErrCode
      rw [if_neg hpfx]
    have hmem : ∀ x ∈ prefixLinesAux (spliceErrCode pfx errCode dec)
        (List.replicate (spliceErrCode pfx errCode dec).length ' ')
        (if ctrl &&& AlwaysInsert ≠ 0 then 0 else ctrl)
        (splitOnChar '\n' s).length 0 (splitOnChar '\n' s), '\n' ∉ x := by
      intro x hx
      obtain ⟨line, hline, hcase⟩ := prefixLinesAux_mem _ _ _ _ _ _ _ hx
      have hnll : '\n' ∉ line := splitOnChar_not_mem '\n' s line hline
      have hnsp : '\n' ∉ List.replicate (spliceErrCode pfx errCode dec).length ' ' := by
        intro hm
        have := List.eq_of_mem_replicate hm
        exact absurd this (by decide)
      rcases hcase with h | h | h <;> subst h
      · exact hnll
      · intro hm
        rcases List.mem_append.mp hm with hm | hm
        · exact hnsp hm
        · exact hnll hm
      · intro hm
        rcases List.mem_append.mp hm with hm | hm
        · exact hnlp hm
        · exact hnll hm
    have hpne : prefixLinesAux (spliceErrCode pfx errCode dec)
        (List.replicate (spliceErrCode pfx errCode dec).length ' ')
        (if ctrl &&& AlwaysInsert ≠ 0 then 0 else ctrl)
        (splitOnChar '\n' s).length 0 (splitOnChar '\n' s) ≠ [] := by
      intro he
      have h1 := prefixLinesAux_length (spliceErrCode pfx errCode dec)
        (List.replicate (spliceErrCode pfx errCode dec).length ' ')
        (if ctrl &&& AlwaysInsert ≠ 0 then 0 else ctrl)
        (splitOnChar '\n' s).length (splitOnChar '\n' s) 0
      rw [he] at h1
      have h2 := splitOnChar_ne_nil '\n' s
      cases hsp : splitOnChar '\n' s with
      | nil => exact h2 hsp
      | cons a t => rw [hsp] at h1; simp at h1
    have hround := splitOnChar_join '\n' _ hpne hmem
    rw [hEq, hround]
    constructor
    · exact prefixLinesAux_length _ _ _ _ _ 0
    · intro i line hline
      rw [prefixLinesAux_getElem _ _ _ _ _ 0 i, hline]
      simp [Nat.zero_add]
  · intro hpfx hs hnl
    have hline := splitOnChar_single '\n' s hnl
    unfold InsertPrefix
    rw [if_neg hpfx]
    simp only [hline]
    have h0 : ¬((0 : Int) > 0 ∧ (0 : Int) ≠ dec) := by omega
    simp only [h0, if_false, Nat.zero_and, ne_eq, not_true_eq_false, not_false_eq_true,
      if_neg, ite_false, prefixLinesAux, joinWithChar]
    simp [hs]

/-- Witness for C6 (amended) at concrete inputs: the middle line of a
two-line Note-style message is prefixed, and a non-empty single-line message
under default mode is the prefix followed by the message. -/
theorem insertPrefix_characterization_witness :
    (splitOnChar '\n' (InsertPrefix "a\nb\n".data "N: ".data 0 0 100))[1]? =
      some ("N: b".data) ∧
    InsertPrefix "hi".data "N: ".data 0 0 100 = "N: hi".data := by
  constructor
  · have h := ((insertPrefix_characterization "a\nb\n".data "N: ".data 0 0 100).2.1
      (by decide) (by decide)).2 1 "b".data (by decide)
    rw [h]
    decide
  · have h := (insertPrefix_characterization "hi".data "N: ".data 0 0 100).2.2
      (by decide) (by decide) (by decide)
    rw [h]
    decide

end Out
